import Mathlib

/-!
Shallow embedding of the Autobit server-provisioning / metering / billing
service (FastAPI + MongoDB + Docker), covering the parts exercised by the
specification claims: the Docker runtime adapter (`app/docker_manager.py`),
the server lifecycle endpoints (`app/routers/servers.py`), the usage
aggregation endpoint (`app/routers/usage.py`), invoice generation and
payment (`app/routers/billing.py`), and the usage sampler task
(`app/workers/usage_sampler.py`).

Numbers that are Python floats in the source are modelled as exact
rationals; Python `round(x, d)` (and MongoDB `$round`) are modelled as
round-half-to-even on rationals; timestamps are integer epoch seconds.
-/

/-- Python `round(x, d)` / Mongo `$round`: round half to even at `d`
decimal places, on exact rationals. -/
def pyRound (x : ℚ) (d : ℕ) : ℚ :=
  let s : ℚ := x * (10 : ℚ) ^ d
  let f : ℤ := ⌊s⌋
  let r : ℚ := s - (f : ℚ)
  let n : ℤ :=
    if r < 1/2 then f
    else if 1/2 < r then f + 1
    else if f % 2 = 0 then f else f + 1
  (n : ℚ) / (10 : ℚ) ^ d

/-- Python `int(x)`: truncation toward zero. -/
def pyInt (x : ℚ) : ℤ := if x < 0 then ⌈x⌉ else ⌊x⌋

/-- Mongo `$dateTrunc` on an epoch-seconds timestamp, for a unit of
`u` seconds (hour = 3600, day = 86400, 5-minute bin = 300). -/
def dateTrunc (u : ℤ) (t : ℤ) : ℤ := t - t % u

/-- `server.status` values (`app/models.py`, `ServerStatus`). -/
inductive SrvStatus where
  | created | running | stopped | deleted
deriving DecidableEq

/-- `invoice.status` values (`app/models.py`, `InvoiceStatus`). -/
inductive InvStatus where
  | draft | sent | paid | overdue
deriving DecidableEq

/-- Transaction payment methods (`app/models.py`, `TransactionMethod`). -/
inductive TxMethod where
  | credit_card | bank_transfer | paypal
deriving DecidableEq

/-- A document of the `servers` collection (`app/models.py`, `ServerInDB`). -/
structure ServerDoc where
  id : String
  user_id : String
  name : String
  image : String
  cpu_limit : ℚ
  cores : ℤ
  ram_gib : ℚ
  disk_gib : ℚ
  status : SrvStatus
  container_id : Option String
  created_at : ℤ
  updated_at : ℤ
deriving DecidableEq

/-- A document of the `usage_samples` collection (`app/models.py`, `UsageSample`). -/
structure UsageSampleDoc where
  id : String
  server_id : String
  ts : ℤ
  cpu_pct : ℚ
  ram_mib : ℚ
  disk_gib : ℚ
deriving DecidableEq

/-- One invoice line item (`app/models.py`, `LineItem`). -/
structure LineItem where
  kind : String
  unit : String
  quantity : ℚ
  rate : ℚ
  amount : ℚ
deriving DecidableEq

/-- A document of the `invoices` collection (`app/models.py`, `InvoiceInDB`). -/
structure InvoiceDoc where
  id : String
  user_id : String
  period_start : ℤ
  period_end : ℤ
  line_items : List LineItem
  subtotal : ℚ
  total : ℚ
  status : InvStatus
  created_at : ℤ
deriving DecidableEq

/-- A document of the `transactions` collection (`app/models.py`, `TransactionInDB`). -/
structure TransactionDoc where
  id : String
  invoice_id : String
  amount : ℚ
  method : TxMethod
  ts : ℤ
deriving DecidableEq

/-- The four application collections of the Mongo database
(`app/database.py`; `users` is outside the modelled core). -/
structure Store where
  servers : List ServerDoc
  usage_samples : List UsageSampleDoc
  invoices : List InvoiceDoc
  transactions : List TransactionDoc
deriving DecidableEq

/-- Mongo `find_one(filter)`: first document matching the filter, in
natural (insertion) order. -/
def findOne {α : Type} (p : α → Bool) (l : List α) : Option α := l.find? p

/-- Mongo `update_one(filter, {"$set": ...})`: rewrite the first matching
document, leave the rest unchanged. -/
def updateFirst {α : Type} (p : α → Bool) (f : α → α) : List α → List α
  | [] => []
  | x :: xs => if p x then f x :: xs else x :: updateFirst p f xs

/-- Mongo `delete_one(filter)`: remove the first matching document. -/
def eraseFirst {α : Type} (p : α → Bool) : List α → List α
  | [] => []
  | x :: xs => if p x then xs else x :: eraseFirst p xs

/-- Endpoint outcome: a payload, or an `HTTPException(status, detail)`. -/
inductive ApiResult (α : Type) where
  | ok : α → ApiResult α
  | err : ℕ → String → ApiResult α
deriving DecidableEq

/-!
## Runtime adapter (`app/docker_manager.py`)

The `DockerManager` either holds a live Docker client (`available = true`)
or none (`available = false`, mock mode, chosen once at construction).
The real Docker daemon is modelled as an explicit state: a list of
containers plus a supply of fresh container ids.
-/

/-- One Docker container as the adapter sees it. -/
structure Container where
  id : String
  image : String
  cpu_quota : ℤ
  cpu_period : ℤ
  mem_limit : ℤ
  running : Bool
deriving DecidableEq

/-- The Docker daemon state: its containers and the id it will assign to
the next created container. -/
structure DockerState where
  containers : List Container
  nextId : ℕ
deriving DecidableEq

/-- A raw `container.stats(stream=False)` reading, as used by the real
branch of `get_container_stats`: cumulative cpu usage and system cpu
usage at the two readings, number of per-cpu entries, memory usage in
bytes, and the optional `storage_stats.size` in bytes. -/
structure RawStats where
  cpu_total_usage : ℤ
  precpu_total_usage : ℤ
  system_cpu_usage : ℤ
  presystem_cpu_usage : ℤ
  percpu_count : ℕ
  memory_usage : ℤ
  storage_size : Option ℤ
deriving DecidableEq

/-- A stats dictionary returned by `get_container_stats`: string keys to
numeric values, looked up as a Python dict. -/
def StatsMap : Type := List (String × ℚ)

/-- Python dict lookup `d[k]` as an `Option` (a missing key raises
`KeyError` in the source). -/
def dictGet (d : StatsMap) (k : String) : Option ℚ :=
  (d.find? (fun kv => kv.1 = k)).map (fun kv => kv.2)

/-- `DockerManager.create_container`: in mock mode, return the synthetic
handle `"mock-container-" ++ server.id`; in real mode, create a container
with `cpu_quota = int(cpu_limit * 100000)`, `cpu_period = 100000`,
`mem_limit = memswap_limit = int(ram_gib * 1024^3)` bytes (swap disabled),
not yet running, and return its daemon-assigned id. -/
def create_container (available : Bool) (st : DockerState) (server : ServerDoc) :
    String × DockerState :=
  if !available then ("mock-container-" ++ server.id, st)
  else
    let cid := "ctr-" ++ toString st.nextId
    let c : Container :=
      { id := cid
        image := server.image
        cpu_quota := pyInt (server.cpu_limit * 100000)
        cpu_period := 100000
        mem_limit := pyInt (server.ram_gib * 1024 * 1024 * 1024)
        running := false }
    (cid, { containers := st.containers ++ [c], nextId := st.nextId + 1 })

/-- `DockerManager.start_container`: mock mode returns success without
touching anything; real mode starts the container, or returns `false`
when `containers.get` raises (container not found). -/
def start_container (available : Bool) (st : DockerState) (cid : String) :
    Bool × DockerState :=
  if !available then (true, st)
  else
    match st.containers.find? (fun c => c.id = cid) with
    | some _ =>
        let cs := updateFirst (fun c => c.id = cid) (fun c => { c with running := true })
          st.containers
        (true, { st with containers := cs })
    | none => (false, st)

/-- `DockerManager.stop_container`: mock mode returns success; real mode
stops the container, or returns `false` when it is not found. -/
def stop_container (available : Bool) (st : DockerState) (cid : String) :
    Bool × DockerState :=
  if !available then (true, st)
  else
    match st.containers.find? (fun c => c.id = cid) with
    | some _ =>
        let cs := updateFirst (fun c => c.id = cid) (fun c => { c with running := false })
          st.containers
        (true, { st with containers := cs })
    | none => (false, st)

/-- `DockerManager.delete_container`: mock mode returns success; real mode
removes the container (`remove(force=True)`), or returns `false` when it
is not found. -/
def delete_container (available : Bool) (st : DockerState) (cid : String) :
    Bool × DockerState :=
  if !available then (true, st)
  else
    match st.containers.find? (fun c => c.id = cid) with
    | some _ => (true, { st with containers := eraseFirst (fun c => c.id = cid) st.containers })
    | none => (false, st)

/-- The stats dictionary returned by `get_container_stats` in mock mode:
note its keys `memory_usage_mb` / `disk_usage_gb`. -/
def mockStatsMap : StatsMap :=
  [("cpu_percent", 25), ("memory_usage_mb", 512), ("disk_usage_gb", 1)]

/-- `DockerManager.get_container_stats`: mock mode returns the fixed mock
dictionary; the real branch computes the cpu percentage from the two
cumulative readings (0 unless both deltas are positive), memory in MiB,
disk in GiB from `storage_stats.size` when present else 0, each rounded
to 2 decimals, under the keys `cpu_percent` / `memory_mb` / `disk_gb`.
`raw` is the daemon's reading for the container; `none` models the real
branch raising (stats fetch failure), which the source catches and turns
into `None`. -/
def get_container_stats (available : Bool) (raw : Option RawStats) (_cid : String) :
    Option StatsMap :=
  if !available then some mockStatsMap
  else
    match raw with
    | none => none
    | some r =>
        let cpu_delta : ℚ := ((r.cpu_total_usage - r.precpu_total_usage : ℤ) : ℚ)
        let system_delta : ℚ := ((r.system_cpu_usage - r.presystem_cpu_usage : ℤ) : ℚ)
        let cpu_percent : ℚ :=
          if 0 < system_delta ∧ 0 < cpu_delta then
            cpu_delta / system_delta * (r.percpu_count : ℚ) * 100
          else 0
        let memory_mb : ℚ := (r.memory_usage : ℚ) / (1024 * 1024)
        let disk_gb : ℚ :=
          match r.storage_size with
          | some sz => (sz : ℚ) / (1024 * 1024 * 1024)
          | none => 0
        some [("cpu_percent", pyRound cpu_percent 2),
              ("memory_mb", pyRound memory_mb 2),
              ("disk_gb", pyRound disk_gb 2)]

/-- `DockerManager.update_container_resources`: stop, delete, recreate
with the new shape, start the new container — and return only `true`:
the id of the newly created container is dropped on the floor, never
handed back to the caller. -/
def update_container_resources (available : Bool) (st : DockerState)
    (cid : String) (server : ServerDoc) : Bool × DockerState :=
  let (_, st1) := stop_container available st cid
  let (_, st2) := delete_container available st1 cid
  let (new_container_id, st3) := create_container available st2 server
  let (_, st4) := start_container available st3 new_container_id
  (true, st4)

/-- `DockerManager.is_container_running`: this method has no mock guard;
with no client (`self.client is None`) the attribute access raises, the
`except` catches it and returns `false`. In real mode it reports whether
the container exists and has status `running`. -/
def is_container_running (available : Bool) (st : DockerState) (cid : String) : Bool :=
  if !available then false
  else
    match st.containers.find? (fun c => c.id = cid) with
    | some c => c.running
    | none => false

/-!
## Server lifecycle endpoints (`app/routers/servers.py`)

Each endpoint receives the authenticated caller's user id, the Mongo
store, and the Docker manager (its `available` flag plus the daemon
state), and returns the HTTP outcome together with the new store and
daemon state.
-/

/-- `POST /servers` (`create_server`): validate all four resource values
positive, create the container, persist the server with status Created
and the returned handle. `newId`/`now` stand for the generated uuid and
`datetime.utcnow()`. -/
def create_server (available : Bool) (dst : DockerState) (db : Store)
    (userId : String) (nm img : String) (cpu : ℚ) (cores : ℤ) (ram disk : ℚ)
    (newId : String) (now : ℤ) : ApiResult ServerDoc × Store × DockerState :=
  if cpu ≤ 0 ∨ cores ≤ 0 ∨ ram ≤ 0 ∨ disk ≤ 0 then
    (.err 400 "All resource values must be positive", db, dst)
  else
    let server : ServerDoc :=
      { id := newId, user_id := userId, name := nm, image := img
        cpu_limit := cpu, cores := cores, ram_gib := ram, disk_gib := disk
        status := .created, container_id := none
        created_at := now, updated_at := now }
    let (cid, dst') := create_container available dst server
    let server' := { server with container_id := some cid }
    (.ok server', { db with servers := db.servers ++ [server'] }, dst')

/-- `POST /servers/{id}/start` (`start_server`): ownership-checked read,
reject if already Running or the handle is absent, start the container,
and on success persist status Running — note the `update_one` filter is
`{"id": server_id}` alone, without `user_id`. -/
def start_server (available : Bool) (dst : DockerState) (db : Store)
    (userId serverId : String) (now : ℤ) : ApiResult String × Store × DockerState :=
  match findOne (fun s => s.id = serverId ∧ s.user_id = userId) db.servers with
  | none => (.err 404 "Server not found", db, dst)
  | some server =>
    if server.status = .running then
      (.err 400 "Server is already running", db, dst)
    else
      match server.container_id with
      | none => (.err 400 "Server container not found", db, dst)
      | some cid =>
        let (ok, dst') := start_container available dst cid
        if ok then
          let ss := updateFirst (fun s => s.id = serverId)
            (fun s => { s with status := .running, updated_at := now }) db.servers
          (.ok "Server started successfully", { db with servers := ss }, dst')
        else
          (.err 500 "Failed to start server", db, dst')

/-- `POST /servers/{id}/stop` (`stop_server`): mirror image of start —
reject if already Stopped or the handle is absent; the persisting
`update_one` filter again carries only the server id. -/
def stop_server (available : Bool) (dst : DockerState) (db : Store)
    (userId serverId : String) (now : ℤ) : ApiResult String × Store × DockerState :=
  match findOne (fun s => s.id = serverId ∧ s.user_id = userId) db.servers with
  | none => (.err 404 "Server not found", db, dst)
  | some server =>
    if server.status = .stopped then
      (.err 400 "Server is already stopped", db, dst)
    else
      match server.container_id with
      | none => (.err 400 "Server container not found", db, dst)
      | some cid =>
        let (ok, dst') := stop_container available dst cid
        if ok then
          let ss := updateFirst (fun s => s.id = serverId)
            (fun s => { s with status := .stopped, updated_at := now }) db.servers
          (.ok "Server stopped successfully", { db with servers := ss }, dst')
        else
          (.err 500 "Failed to stop server", db, dst')

/-- A `PATCH /servers/{id}` body (`ServerUpdate`): unset fields are absent. -/
structure ServerUpdateReq where
  name : Option String
  cpu_limit : Option ℚ
  cores : Option ℤ
  ram_gib : Option ℚ
  disk_gib : Option ℚ
deriving DecidableEq

/-- Whether any resource field is present in the update body. -/
def resourceChanged (u : ServerUpdateReq) : Bool :=
  u.cpu_limit.isSome ∨ u.cores.isSome ∨ u.ram_gib.isSome ∨ u.disk_gib.isSome

/-- Whether the update body is empty (`exclude_unset` leaves nothing). -/
def emptyUpdate (u : ServerUpdateReq) : Bool :=
  u.name.isNone ∧ u.cpu_limit.isNone ∧ u.cores.isNone ∧ u.ram_gib.isNone ∧ u.disk_gib.isNone

/-- The positivity validation loop over present resource fields. -/
def badResource (u : ServerUpdateReq) : Bool :=
  (match u.cpu_limit with | some v => decide (v ≤ 0) | none => false) ||
  (match u.cores with | some v => decide (v ≤ 0) | none => false) ||
  (match u.ram_gib with | some v => decide (v ≤ 0) | none => false) ||
  (match u.disk_gib with | some v => decide (v ≤ 0) | none => false)

/-- `setattr` application of the present fields onto the server. -/
def applyUpdate (u : ServerUpdateReq) (s : ServerDoc) : ServerDoc :=
  { s with
    name := u.name.getD s.name
    cpu_limit := u.cpu_limit.getD s.cpu_limit
    cores := u.cores.getD s.cores
    ram_gib := u.ram_gib.getD s.ram_gib
    disk_gib := u.disk_gib.getD s.disk_gib }

/-- `PATCH /servers/{id}` (`update_server`): ownership-checked read,
validate, apply the body; if the server is Running with a handle and a
resource field changed, call `update_container_resources` on the old
handle; then persist `server.dict()` via `update_one({"id": server_id})`
— the persisted document still carries the old `container_id`, because
`update_container_resources` never returns the id of the container it
created. -/
def update_server (available : Bool) (dst : DockerState) (db : Store)
    (userId serverId : String) (u : ServerUpdateReq) (now : ℤ) :
    ApiResult ServerDoc × Store × DockerState :=
  match findOne (fun s => s.id = serverId ∧ s.user_id = userId) db.servers with
  | none => (.err 404 "Server not found", db, dst)
  | some server =>
    if emptyUpdate u then (.err 400 "No fields to update", db, dst)
    else if badResource u then (.err 400 "resource field must be positive", db, dst)
    else
      let server' := { applyUpdate u server with updated_at := now }
      let replace := server'.status = .running ∧ server'.container_id.isSome ∧ resourceChanged u
      let dst' :=
        if replace then
          (update_container_resources available dst (server'.container_id.getD "") server').2
        else dst
      let ss := updateFirst (fun s => s.id = serverId) (fun _ => server') db.servers
      (.ok server', { db with servers := ss }, dst')

/-- `DELETE /servers/{id}` (`delete_server`): ownership-checked read,
best-effort container delete, then `delete_one` scoped by id and
user_id. -/
def delete_server (available : Bool) (dst : DockerState) (db : Store)
    (userId serverId : String) : ApiResult String × Store × DockerState :=
  match findOne (fun s => s.id = serverId ∧ s.user_id = userId) db.servers with
  | none => (.err 404 "Server not found", db, dst)
  | some server =>
    let dst' :=
      match server.container_id with
      | some cid => (delete_container available dst cid).2
      | none => dst
    let ss := eraseFirst (fun s => s.id = serverId ∧ s.user_id = userId) db.servers
    (.ok "Server deleted successfully", { db with servers := ss }, dst')

/-!
## Usage sampler task (`app/workers/usage_sampler.py`)

`sample_server_usage` is the per-server task body. Its two adapter calls
are passed in as their results (`isRun`, `stats`), so the task's own
control flow — orphan removal, sample construction by dict lookups, and
the blanket `except` that swallows a `KeyError` — is explicit.
-/

/-- One run of `sample_server_usage` for a server: if the liveness probe
fails, delete the server record and stop; otherwise, if stats came back,
build the sample by reading `stats["cpu_percent"]`, `stats["memory_mb"]`,
`stats["disk_gb"]` — a missing key raises `KeyError`, which the task's
`except` handler catches, so nothing is written. -/
def sample_server_usage (isRun : Bool) (stats : Option StatsMap) (db : Store)
    (serverId : String) (newId : String) (now : ℤ) : Store :=
  if !isRun then
    { db with servers := eraseFirst (fun s => s.id = serverId) db.servers }
  else
    match stats with
    | none => db
    | some st =>
      match dictGet st "cpu_percent", dictGet st "memory_mb", dictGet st "disk_gb" with
      | some c, some m, some d =>
        let sample : UsageSampleDoc :=
          { id := newId, server_id := serverId, ts := now
            cpu_pct := c, ram_mib := m, disk_gib := d }
        { db with usage_samples := db.usage_samples ++ [sample] }
      | _, _, _ => db

/-!
## Usage aggregation endpoint (`app/routers/usage.py`)
-/

/-- One row of the usage response: at interval `1m` the raw sample
documents pass through; at coarser intervals each row is a bucket with
the rounded per-bucket averages and a sample count. -/
inductive URow where
  | raw : UsageSampleDoc → URow
  | bucket : ℤ → ℚ → ℚ → ℚ → ℕ → URow
deriving DecidableEq

/-- Arithmetic mean of a list of rationals (`$avg`). -/
def qMean (l : List ℚ) : ℚ := l.sum / (l.length : ℚ)

/-- Keep the first occurrence of every value, in first-seen order. -/
def dedupFirst : List ℤ → List ℤ
  | [] => []
  | k :: ks => k :: dedupFirst (ks.filter (fun x => x ≠ k))
termination_by l => l.length
decreasing_by
  simp only [List.length_cons]
  exact Nat.lt_succ_of_le (List.length_filter_le _ _)

/-- The `$group` keys: distinct truncated timestamps in first-seen order
(the input reaches `$group` already `$sort`-ed by `ts`, so this is
bucket-start order). -/
def bucketKeys (u : ℤ) (l : List UsageSampleDoc) : List ℤ :=
  dedupFirst (l.map (fun s => dateTrunc u s.ts))

/-- The `$group` + `$project` row for one bucket key: `$avg` of each
metric over the samples in the bucket, `$round`-ed to 2 decimals, and
the bucket's sample count. -/
def bucketRow (u : ℤ) (l : List UsageSampleDoc) (k : ℤ) : URow :=
  let g := l.filter (fun s => dateTrunc u s.ts = k)
  .bucket k (pyRound (qMean (g.map (fun s => s.cpu_pct))) 2)
    (pyRound (qMean (g.map (fun s => s.ram_mib))) 2)
    (pyRound (qMean (g.map (fun s => s.disk_gib))) 2)
    g.length

/-- The grouping stage of the aggregation pipeline. -/
def groupRows (u : ℤ) (l : List UsageSampleDoc) : List URow :=
  (bucketKeys u l).map (bucketRow u l)

/-- Insert a sample into a `ts`-ascending list (stable). -/
def insertTs (s : UsageSampleDoc) : List UsageSampleDoc → List UsageSampleDoc
  | [] => [s]
  | t :: rest => if s.ts ≤ t.ts then s :: t :: rest else t :: insertTs s rest

/-- `$sort {"ts": 1}`: stable sort by ascending timestamp. -/
def sortByTs (l : List UsageSampleDoc) : List UsageSampleDoc :=
  l.foldr insertTs []

/-- `GET /servers/{id}/usage` (`get_server_usage`): ownership-checked
server read; `to` defaults to now and `from` to `to` minus 7 days;
interval validated against `{1m, 5m, 1h, 1d}`; the `$match` stage keeps
samples of the server with `from <= ts` (`$gte`) and `ts <= to` (`$lte` —
both bounds inclusive), sorted by `ts`; `1m` returns the raw rows, the
other intervals group by the `$dateTrunc`-ated timestamp. -/
def get_server_usage (db : Store) (userId serverId : String)
    (from_date to_date : Option ℤ) (interval : String) (now : ℤ) :
    ApiResult (List URow) :=
  match findOne (fun s => s.id = serverId ∧ s.user_id = userId) db.servers with
  | none => .err 404 "Server not found"
  | some _ =>
    let toTs := to_date.getD now
    let fromTs := from_date.getD (toTs - 7 * 86400)
    if !(interval = "1m" ∨ interval = "5m" ∨ interval = "1h" ∨ interval = "1d") then
      .err 400 "Invalid interval. Must be one of: 1m, 5m, 1h, 1d"
    else
      let matched := sortByTs (db.usage_samples.filter
        (fun s => s.server_id = serverId ∧ fromTs ≤ s.ts ∧ s.ts ≤ toTs))
      if interval = "1m" then .ok (matched.map .raw)
      else if interval = "5m" then .ok (groupRows 300 matched)
      else if interval = "1h" then .ok (groupRows 3600 matched)
      else .ok (groupRows 86400 matched)

/-!
## Billing (`app/routers/billing.py`, rates from `app/config.py`)
-/

/-- The three billing rate settings (`app/config.py`). -/
structure Rates where
  vcpu_rate_per_core_hour : ℚ
  ram_rate_per_gib_hour : ℚ
  disk_rate_per_gib_hour : ℚ
deriving DecidableEq

/-- The default settings: 0.0100 / 0.0015 / 0.00005 USD per hour. -/
def defaultRates : Rates :=
  { vcpu_rate_per_core_hour := 1/100
    ram_rate_per_gib_hour := 15/10000
    disk_rate_per_gib_hour := 5/100000 }

/-- The `for i in range(len(usage_samples) - 1)` integration loop of
`generate_invoice`: over each adjacent pair, `time_diff` in hours, and
the three accumulators fed by the earlier sample's values (and the
server's `cores` / `disk_gib`). -/
def accumHours (cores : ℤ) (disk_gib : ℚ) : List UsageSampleDoc → ℚ × ℚ × ℚ
  | [] => (0, 0, 0)
  | [_] => (0, 0, 0)
  | a :: b :: rest =>
    let time_diff : ℚ := ((b.ts - a.ts : ℤ) : ℚ) / 3600
    let acc := accumHours cores disk_gib (b :: rest)
    (a.cpu_pct / 100 * (cores : ℚ) * time_diff + acc.1,
     a.ram_mib / 1024 * time_diff + acc.2.1,
     disk_gib * time_diff + acc.2.2)

/-- The per-server line items of `generate_invoice`, together with the
server's (unrounded) contribution to `total_amount`: one item per
strictly positive resource-hour total, quantity rounded to 4 decimals,
amount = unrounded hours × rate rounded to 4 decimals. -/
def lineItemsFor (rates : Rates) (server : ServerDoc) (samples : List UsageSampleDoc) :
    List LineItem × ℚ :=
  let h := accumHours server.cores server.disk_gib samples
  let vcpu_hours := h.1
  let ram_hours := h.2.1
  let disk_hours := h.2.2
  let itemsV : List LineItem :=
    if 0 < vcpu_hours then
      [{ kind := "vCPU", unit := "core-hour", quantity := pyRound vcpu_hours 4
         rate := rates.vcpu_rate_per_core_hour
         amount := pyRound (vcpu_hours * rates.vcpu_rate_per_core_hour) 4 }]
    else []
  let itemsR : List LineItem :=
    if 0 < ram_hours then
      [{ kind := "RAM", unit := "gib-hour", quantity := pyRound ram_hours 4
         rate := rates.ram_rate_per_gib_hour
         amount := pyRound (ram_hours * rates.ram_rate_per_gib_hour) 4 }]
    else []
  let itemsD : List LineItem :=
    if 0 < disk_hours then
      [{ kind := "Disk", unit := "gib-hour", quantity := pyRound disk_hours 4
         rate := rates.disk_rate_per_gib_hour
         amount := pyRound (disk_hours * rates.disk_rate_per_gib_hour) 4 }]
    else []
  let amtV := if 0 < vcpu_hours then vcpu_hours * rates.vcpu_rate_per_core_hour else 0
  let amtR := if 0 < ram_hours then ram_hours * rates.ram_rate_per_gib_hour else 0
  let amtD := if 0 < disk_hours then disk_hours * rates.disk_rate_per_gib_hour else 0
  (itemsV ++ itemsR ++ itemsD, amtV + amtR + amtD)

/-- The `for server in servers` loop of `generate_invoice`: each server's
samples inside `[period_start, period_end)` (`$gte` / `$lt`), sorted by
`ts`, fed to the integration; line items concatenated in server order,
`total_amount` accumulated unrounded. -/
def invoiceItems (rates : Rates) (db : Store) (ps pe : ℤ) :
    List ServerDoc → List LineItem × ℚ
  | [] => ([], 0)
  | s :: rest =>
    let samples := sortByTs (db.usage_samples.filter
      (fun x => x.server_id = s.id ∧ ps ≤ x.ts ∧ x.ts < pe))
    let this := lineItemsFor rates s samples
    let others := invoiceItems rates db ps pe rest
    (this.1 ++ others.1, this.2 + others.2)

/-- `POST /billing/invoices/generate` (`generate_invoice`): reject a
malformed period and a duplicate (user, start, end) before the `try`
block; inside the `try`, a user with no servers raises
`HTTPException(400)` — which the blanket `except Exception` catches and
re-raises as a 500 — otherwise build the line items and persist the
Draft invoice with `subtotal = total = round(total_amount, 4)`. -/
def generate_invoice (rates : Rates) (db : Store) (userId : String)
    (ps pe : ℤ) (newId : String) (now : ℤ) : ApiResult InvoiceDoc × Store :=
  if pe ≤ ps then (.err 400 "Period start must be before period end", db)
  else if (findOne (fun i => i.user_id = userId ∧ i.period_start = ps ∧ i.period_end = pe)
      db.invoices).isSome then
    (.err 400 "Invoice already exists for this period", db)
  else
    let servers := db.servers.filter (fun s => s.user_id = userId)
    if servers.isEmpty then
      (.err 500 "Failed to generate invoice: 400: No servers found for user", db)
    else
      let acc := invoiceItems rates db ps pe servers
      let inv : InvoiceDoc :=
        { id := newId, user_id := userId, period_start := ps, period_end := pe
          line_items := acc.1
          subtotal := pyRound acc.2 4, total := pyRound acc.2 4
          status := .draft, created_at := now }
      (.ok inv, { db with invoices := db.invoices ++ [inv] })

/-- `POST /billing/invoices/{id}/pay` (`pay_invoice`): ownership-checked
read; reject 404 if absent, 400 if already Paid; otherwise insert one
Transaction for the invoice's current total and flip the invoice to Paid
via `update_one({"id": invoice_id})` (id-only filter). -/
def pay_invoice (db : Store) (userId invoiceId : String) (method : TxMethod)
    (txId : String) (now : ℤ) : ApiResult TransactionDoc × Store :=
  match findOne (fun i => i.id = invoiceId ∧ i.user_id = userId) db.invoices with
  | none => (.err 404 "Invoice not found", db)
  | some inv =>
    if inv.status = .paid then (.err 400 "Invoice is already paid", db)
    else
      let tx : TransactionDoc :=
        { id := txId, invoice_id := invoiceId, amount := inv.total
          method := method, ts := now }
      let invs := updateFirst (fun i => i.id = invoiceId)
        (fun i => { i with status := .paid }) db.invoices
      (.ok tx, { db with transactions := db.transactions ++ [tx], invoices := invs })

/-!
## Spec-side formulations

Definitions below follow the specification text rather than the source;
they exist to be compared with the source-derived functions above.
-/

/-- As the spec words it: `vcpu_hours` is the sum over adjacent sample
pairs `(a, b)` of `(a.cpu_pct / 100) * cores * ((b.ts - a.ts) / 3600)`. -/
def specVcpuHours (cores : ℤ) (samples : List UsageSampleDoc) : ℚ :=
  ((samples.zip samples.tail).map
    (fun p => p.1.cpu_pct / 100 * (cores : ℚ) * (((p.2.ts - p.1.ts : ℤ) : ℚ) / 3600))).sum

/-- As the spec words it: `ram_hours` is the sum over adjacent pairs of
`(a.ram_mib / 1024) * dt_hours`. -/
def specRamHours (samples : List UsageSampleDoc) : ℚ :=
  ((samples.zip samples.tail).map
    (fun p => p.1.ram_mib / 1024 * (((p.2.ts - p.1.ts : ℤ) : ℚ) / 3600))).sum

/-- As the spec words it: `disk_hours` is the sum over adjacent pairs of
`disk_gib * dt_hours`. -/
def specDiskHours (disk_gib : ℚ) (samples : List UsageSampleDoc) : ℚ :=
  ((samples.zip samples.tail).map
    (fun p => disk_gib * (((p.2.ts - p.1.ts : ℤ) : ℚ) / 3600))).sum

/-!
## Concrete fixtures used by closed theorems and witnesses
-/

/-- A real container `"c1"`, running, as Docker would hold it. -/
def c1cont : Container :=
  { id := "c1", image := "nginx", cpu_quota := 100000, cpu_period := 100000,
    mem_limit := 1073741824, running := true }

/-- Docker daemon holding only `c1cont`; next assigned id is `"ctr-0"`. -/
def c1dock : DockerState := { containers := [c1cont], nextId := 0 }

/-- A Running server of user `alice` whose handle is `"c1"`. -/
def c1srv : ServerDoc :=
  { id := "s1", user_id := "alice", name := "web", image := "nginx", cpu_limit := 1,
    cores := 2, ram_gib := 1, disk_gib := 10, status := .running,
    container_id := some "c1", created_at := 0, updated_at := 0 }

/-- Store for the resource-update scenario: just `c1srv`. -/
def c1db : Store := { servers := [c1srv], usage_samples := [], invoices := [], transactions := [] }

/-- A resource-shape update request: set `cores := 4`. -/
def c1upd : ServerUpdateReq :=
  { name := none, cpu_limit := none, cores := some 4, ram_gib := none, disk_gib := none }

/-- A server with id `"s1"`, used for the mock-handle check. -/
def c2srv : ServerDoc :=
  { id := "s1", user_id := "alice", name := "web", image := "nginx", cpu_limit := 1,
    cores := 1, ram_gib := 1, disk_gib := 1, status := .created,
    container_id := none, created_at := 0, updated_at := 0 }

/-- Server with `cores = 2` for the spec's worked invoice example. -/
def c3srv : ServerDoc :=
  { id := "s1", user_id := "alice", name := "web", image := "nginx", cpu_limit := 1,
    cores := 2, ram_gib := 1, disk_gib := 1, status := .running,
    container_id := some "c1", created_at := 0, updated_at := 0 }

/-- First sample of the worked example: `cpu_pct = 50` at `t0 = 0`. -/
def c3a : UsageSampleDoc :=
  { id := "u1", server_id := "s1", ts := 0, cpu_pct := 50, ram_mib := 0, disk_gib := 0 }

/-- Second sample of the worked example, 3600 s later. -/
def c3b : UsageSampleDoc :=
  { id := "u2", server_id := "s1", ts := 3600, cpu_pct := 50, ram_mib := 0, disk_gib := 0 }

/-- Store for the worked invoice example. -/
def c3db : Store := { servers := [c3srv], usage_samples := [c3a, c3b], invoices := [], transactions := [] }

/-- The vCPU line item the worked example must produce. -/
def c3vItem : LineItem :=
  { kind := "vCPU", unit := "core-hour", quantity := 1, rate := 1/100, amount := 1/100 }

/-- A Draft invoice of `alice` with total 42. -/
def c4inv : InvoiceDoc :=
  { id := "i1", user_id := "alice", period_start := 0, period_end := 3600,
    line_items := [], subtotal := 42, total := 42, status := .draft, created_at := 0 }

/-- Store holding only `c4inv`. -/
def c4db : Store := { servers := [], usage_samples := [], invoices := [c4inv], transactions := [] }

/-- A server of `alice` for the usage-range boundary check. -/
def c5srv : ServerDoc :=
  { id := "s1", user_id := "alice", name := "web", image := "nginx", cpu_limit := 1,
    cores := 1, ram_gib := 1, disk_gib := 1, status := .running,
    container_id := some "c1", created_at := 0, updated_at := 0 }

/-- A sample sitting exactly on a query's end bound (`ts = 100`). -/
def c5samp : UsageSampleDoc :=
  { id := "u1", server_id := "s1", ts := 100, cpu_pct := 10, ram_mib := 20, disk_gib := 1 }

/-- Store for the boundary check. -/
def c5db : Store := { servers := [c5srv], usage_samples := [c5samp], invoices := [], transactions := [] }

/-- A server of `alice` for the hour-bucket aggregation check. -/
def c6srv : ServerDoc :=
  { id := "s1", user_id := "alice", name := "web", image := "nginx", cpu_limit := 1,
    cores := 1, ram_gib := 1, disk_gib := 1, status := .running,
    container_id := some "c1", created_at := 0, updated_at := 0 }

/-- Hour bucket 0, sample 1: `cpu_pct = 0`. -/
def c6s1 : UsageSampleDoc :=
  { id := "u1", server_id := "s1", ts := 0, cpu_pct := 0, ram_mib := 0, disk_gib := 0 }

/-- Hour bucket 0, sample 2: `cpu_pct = 0`. -/
def c6s2 : UsageSampleDoc :=
  { id := "u2", server_id := "s1", ts := 60, cpu_pct := 0, ram_mib := 0, disk_gib := 0 }

/-- Hour bucket 0, sample 3: `cpu_pct = 1`, so the bucket mean is 1/3. -/
def c6s3 : UsageSampleDoc :=
  { id := "u3", server_id := "s1", ts := 120, cpu_pct := 1, ram_mib := 0, disk_gib := 0 }

/-- Hour bucket 3600, single sample. -/
def c6s4 : UsageSampleDoc :=
  { id := "u4", server_id := "s1", ts := 3600, cpu_pct := 5, ram_mib := 0, disk_gib := 0 }

/-- Store whose samples span exactly two hour buckets. -/
def c6db : Store :=
  { servers := [c6srv], usage_samples := [c6s1, c6s2, c6s3, c6s4], invoices := [], transactions := [] }

/-- A store in which `alice` owns no servers at all. -/
def c7db : Store := { servers := [], usage_samples := [], invoices := [], transactions := [] }

/-- Server with `cores = 1` for the rounding counterexample. -/
def c8srv : ServerDoc :=
  { id := "s1", user_id := "alice", name := "web", image := "nginx", cpu_limit := 1,
    cores := 1, ram_gib := 1, disk_gib := 1, status := .created,
    container_id := some "c1", created_at := 0, updated_at := 0 }

/-- Sample with `cpu_pct = 1.4996`, making `vcpu_hours = 0.014996`. -/
def c8a : UsageSampleDoc :=
  { id := "u1", server_id := "s1", ts := 0, cpu_pct := 3749/2500, ram_mib := 0, disk_gib := 0 }

/-- Closing sample one hour later. -/
def c8b : UsageSampleDoc :=
  { id := "u2", server_id := "s1", ts := 3600, cpu_pct := 0, ram_mib := 0, disk_gib := 0 }

/-- Store for the rounding counterexample. -/
def c8db : Store := { servers := [c8srv], usage_samples := [c8a, c8b], invoices := [], transactions := [] }

/-- The vCPU item generated from `c8db`: amount `round(0.014996 * 0.01, 4)
= 0.0001`, whereas amount-from-rounded-quantity would be
`round(0.015 * 0.01, 4) = 0.0002`. -/
def c8vItem : LineItem :=
  { kind := "vCPU", unit := "core-hour", quantity := 3/200, rate := 1/100, amount := 1/10000 }

/-- The Disk item generated from `c8db`. -/
def c8dItem : LineItem :=
  { kind := "Disk", unit := "gib-hour", quantity := 1, rate := 1/20000, amount := 0 }

/-- The invoice generated from `c8db` over `[0, 7200)`. -/
def c8inv : InvoiceDoc :=
  { id := "i1", user_id := "alice", period_start := 0, period_end := 7200,
    line_items := [c8vItem, c8dItem], subtotal := 1/5000, total := 1/5000,
    status := .draft, created_at := 50 }

/-- The store after generating `c8inv`. -/
def c8db2 : Store := { c8db with invoices := [c8inv] }

/-- Eve's Stopped server — note its id `"s"`. -/
def c9eve : ServerDoc :=
  { id := "s", user_id := "eve", name := "evesrv", image := "nginx", cpu_limit := 1,
    cores := 1, ram_gib := 1, disk_gib := 1, status := .stopped,
    container_id := some "c-eve", created_at := 0, updated_at := 0 }

/-- Alice's Stopped server with the same id `"s"` (no unique index on
`servers.id` exists — `app/database.py` creates only non-unique indexes). -/
def c9alice : ServerDoc :=
  { id := "s", user_id := "alice", name := "alicesrv", image := "nginx", cpu_limit := 1,
    cores := 1, ram_gib := 1, disk_gib := 1, status := .stopped,
    container_id := some "c-alice", created_at := 0, updated_at := 0 }

/-- Store with the id collision, Eve's document first in natural order. -/
def c9db : Store := { servers := [c9eve, c9alice], usage_samples := [], invoices := [], transactions := [] }

/-- The Disk line item of the worked example. -/
def c3dItem : LineItem :=
  { kind := "Disk", unit := "gib-hour", quantity := 1, rate := 1/20000, amount := 0 }

/-- The invoice generated from `c3db` over `[0, 7200)`. -/
def c3inv : InvoiceDoc :=
  { id := "i1", user_id := "alice", period_start := 0, period_end := 7200,
    line_items := [c3vItem, c3dItem], subtotal := 1/100, total := 1/100,
    status := .draft, created_at := 50 }

/-!
## Helper lemmas
-/

/-- The integration loop computes exactly the spec's three adjacent-pair
sums. -/
theorem accumHours_eq (cores : ℤ) (dg : ℚ) :
    ∀ l : List UsageSampleDoc,
      accumHours cores dg l = (specVcpuHours cores l, specRamHours l, specDiskHours dg l)
  | [] => by simp [accumHours, specVcpuHours, specRamHours, specDiskHours]
  | [a] => by simp [accumHours, specVcpuHours, specRamHours, specDiskHours]
  | a :: b :: rest => by
    have ih := accumHours_eq cores dg (b :: rest)
    simp only [accumHours, ih, specVcpuHours, specRamHours, specDiskHours,
      List.tail_cons, List.zip_cons_cons, List.map_cons, List.sum_cons]

/-- Membership after `updateFirst`: an element either was already there,
or is the image of a matching element. -/
theorem mem_updateFirst {α : Type} (p : α → Bool) (f : α → α) :
    ∀ (l : List α) (x : α), x ∈ updateFirst p f l →
      x ∈ l ∨ ∃ y, y ∈ l ∧ p y = true ∧ x = f y
  | [], x, h => by simp [updateFirst] at h
  | a :: l, x, h => by
    by_cases hp : p a
    · simp only [updateFirst, if_pos hp] at h
      rcases List.mem_cons.mp h with h | h
      · exact Or.inr ⟨a, List.mem_cons_self a l, hp, h⟩
      · exact Or.inl (List.mem_cons_of_mem a h)
    · simp only [updateFirst, if_neg hp] at h
      rcases List.mem_cons.mp h with h | h
      · exact Or.inl (h ▸ List.mem_cons_self a l)
      · rcases mem_updateFirst p f l x h with h' | ⟨y, hy, hpy, hxy⟩
        · exact Or.inl (List.mem_cons_of_mem a h')
        · exact Or.inr ⟨y, List.mem_cons_of_mem a hy, hpy, hxy⟩

/-- `eraseFirst` only removes elements. -/
theorem mem_eraseFirst {α : Type} (p : α → Bool) :
    ∀ (l : List α) (x : α), x ∈ eraseFirst p l → x ∈ l
  | [], x, h => by simp [eraseFirst] at h
  | a :: l, x, h => by
    by_cases hp : p a
    · simp only [eraseFirst, if_pos hp] at h
      exact List.mem_cons_of_mem a h
    · simp only [eraseFirst, if_neg hp] at h
      rcases List.mem_cons.mp h with h | h
      · exact h ▸ List.mem_cons_self a l
      · exact List.mem_cons_of_mem a (mem_eraseFirst p l x h)

/-- Insertion keeps membership. -/
theorem mem_insertTs (s : UsageSampleDoc) :
    ∀ (l : List UsageSampleDoc) (x : UsageSampleDoc),
      x ∈ l ∨ x = s → x ∈ insertTs s l
  | [], x, h => by
    rcases h with h | h
    · simp at h
    · simp [insertTs, h]
  | a :: l, x, h => by
    by_cases hle : s.ts ≤ a.ts
    · simp only [insertTs, if_pos hle]
      rcases h with h | h
      · exact List.mem_cons_of_mem s h
      · exact h ▸ List.mem_cons_self s (a :: l)
    · simp only [insertTs, if_neg hle]
      rcases h with h | h
      · rcases List.mem_cons.mp h with h' | h'
        · exact h' ▸ List.mem_cons_self a _
        · exact List.mem_cons_of_mem a (mem_insertTs s l x (Or.inl h'))
      · exact List.mem_cons_of_mem a (mem_insertTs s l x (Or.inr h))

/-- Sorting keeps membership. -/
theorem mem_sortByTs :
    ∀ (l : List UsageSampleDoc) (x : UsageSampleDoc), x ∈ l → x ∈ sortByTs l
  | [], x, h => by simp at h
  | a :: l, x, h => by
    rcases List.mem_cons.mp h with h' | h'
    · exact mem_insertTs a (sortByTs l) x (Or.inr h')
    · exact mem_insertTs a (sortByTs l) x (Or.inl (mem_sortByTs l x h'))

/-- In a list whose elements have pairwise distinct keys, two members
with equal keys are the same element. -/
theorem eq_of_mem_pairwise_key {α : Type} (key : α → String) :
    ∀ {l : List α}, l.Pairwise (fun a b => key a ≠ key b) →
      ∀ {x y : α}, x ∈ l → y ∈ l → key x = key y → x = y
  | [], _, x, y, hx, _, _ => by simp at hx
  | a :: l, hp, x, y, hx, hy, hk => by
    rcases List.pairwise_cons.mp hp with ⟨ha, hl⟩
    rcases List.mem_cons.mp hx with hx' | hx' <;> rcases List.mem_cons.mp hy with hy' | hy'
    · exact hx'.trans hy'.symm
    · exact absurd (hx' ▸ hk) (ha y hy')
    · exact absurd (hy' ▸ hk).symm (ha x hx')
    · exact eq_of_mem_pairwise_key key hl hx' hy' hk

/-- `dedupFirst` of a nonempty constant list. -/
theorem dedupFirst_const (h2 : ℤ) :
    ∀ l : List ℤ, l ≠ [] → (∀ x ∈ l, x = h2) → dedupFirst l = [h2]
  | [], hne, _ => absurd rfl hne
  | a :: l, _, hall => by
    have ha : a = h2 := hall a (List.mem_cons_self a l)
    have hf : List.filter (fun x => !decide (x = h2)) l = [] := by
      apply List.filter_eq_nil_iff.mpr
      intro x hx
      simp [hall x (List.mem_cons_of_mem a hx)]
    simp [dedupFirst, ha, hf]

/-- `dedupFirst` of a two-block list. -/
theorem dedupFirst_two (h1 h2 : ℤ) (hne : h1 ≠ h2) :
    ∀ (xs ys : List ℤ), xs ≠ [] → ys ≠ [] →
      (∀ x ∈ xs, x = h1) → (∀ y ∈ ys, y = h2) →
      dedupFirst (xs ++ ys) = [h1, h2]
  | [], _, hxe, _, _, _ => absurd rfl hxe
  | a :: xs, ys, _, hye, hxs, hys => by
    have ha : a = h1 := hxs a (List.mem_cons_self a xs)
    have hfx : List.filter (fun x => !decide (x = h1)) xs = [] := by
      apply List.filter_eq_nil_iff.mpr
      intro x hx
      simp [hxs x (List.mem_cons_of_mem a hx)]
    have hfy : List.filter (fun x => !decide (x = h1)) ys = ys := by
      apply List.filter_eq_self.mpr
      intro y hy
      simp [hys y hy, Ne.symm hne]
    simp [dedupFirst, ha, List.filter_append, hfx, hfy, dedupFirst_const h2 ys hye hys]

/-- After flipping via an id-only `update_one`, every remaining document
with the paid invoice's id is the paid version of the invoice that the
ownership-checked `find_one` returned — provided invoice ids are
pairwise distinct. -/
theorem updateFirst_paid_of_find (iid uid : String) (inv : InvoiceDoc) :
    ∀ l : List InvoiceDoc, l.Pairwise (fun a b => a.id ≠ b.id) →
      l.find? (fun i => i.id = iid ∧ i.user_id = uid) = some inv →
      ∀ i ∈ updateFirst (fun i => i.id = iid)
          (fun i => { i with status := InvStatus.paid }) l,
        i.id = iid → i = { inv with status := InvStatus.paid }
  | [], _, hf, _, _, _ => by simp at hf
  | a :: l, hp, hf, i, hi, hiid => by
    rcases List.pairwise_cons.mp hp with ⟨ha, hl⟩
    by_cases hid : a.id = iid
    · by_cases hu : a.user_id = uid
      · have hstep : List.find? (fun i => decide (i.id = iid ∧ i.user_id = uid)) (a :: l) =
            some a := by
          apply List.find?_cons_of_pos
          simp [hid, hu]
        rw [hstep] at hf
        have hinv : inv = a := (Option.some.inj hf).symm
        have hup : updateFirst (fun i => decide (i.id = iid))
            (fun i => { i with status := InvStatus.paid }) (a :: l) =
            { a with status := InvStatus.paid } :: l := by
          simp [updateFirst, hid]
        rw [hup] at hi
        rcases List.mem_cons.mp hi with h | h
        · rw [h, hinv]
        · exact absurd (hid.trans hiid.symm).symm (Ne.symm (ha i h))
      · have hstep : List.find? (fun i => decide (i.id = iid ∧ i.user_id = uid)) (a :: l) =
            List.find? (fun i => decide (i.id = iid ∧ i.user_id = uid)) l := by
          apply List.find?_cons_of_neg
          simp [hu]
        rw [hstep] at hf
        have hmem := List.mem_of_find?_eq_some hf
        have hinvid : inv.id = iid := by
          have hps := List.find?_some hf
          simp at hps
          exact hps.1
        exact absurd (hid.trans hinvid.symm) (ha inv hmem)
    · have hup : updateFirst (fun i => decide (i.id = iid))
          (fun i => { i with status := InvStatus.paid }) (a :: l) =
          a :: updateFirst (fun i => decide (i.id = iid))
            (fun i => { i with status := InvStatus.paid }) l := by
        simp [updateFirst, hid]
      have hstep : List.find? (fun i => decide (i.id = iid ∧ i.user_id = uid)) (a :: l) =
          List.find? (fun i => decide (i.id = iid ∧ i.user_id = uid)) l := by
        apply List.find?_cons_of_neg
        simp [hid]
      rw [hstep] at hf
      rw [hup] at hi
      rcases List.mem_cons.mp hi with h | h
      · exact absurd (h ▸ hiid) hid
      · exact updateFirst_paid_of_find iid uid inv l hl hf i h hiid

/-- The image of the unique matching element is a member of the updated
list. -/
theorem updateFirst_mem_image {α : Type} (p : α → Bool) (f : α → α) :
    ∀ (l : List α) (y : α), y ∈ l → p y = true →
      (∀ x ∈ l, p x = true → x = y) → f y ∈ updateFirst p f l
  | [], y, hy, _, _ => by simp at hy
  | a :: l, y, hy, hpy, hun => by
    by_cases hpa : p a
    · have hay : a = y := hun a (List.mem_cons_self a l) hpa
      subst hay
      simp only [updateFirst, if_pos hpa]
      exact List.mem_cons_self (f a) l
    · have hyl : y ∈ l := by
        rcases List.mem_cons.mp hy with h | h
        · exact absurd (h ▸ hpy) (by simpa using hpa)
        · exact h
      simp only [updateFirst, if_neg hpa]
      exact List.mem_cons_of_mem a
        (updateFirst_mem_image p f l y hyl hpy (fun x hx => hun x (List.mem_cons_of_mem a hx)))

/-- Every line item a server contributes has `quantity` the 4-decimal
rounding of its raw hour total `q`, and `amount = round(q * rate, 4)` on
the same raw `q`. -/
theorem lineItemsFor_shape (rates : Rates) (s : ServerDoc) (samples : List UsageSampleDoc) :
    ∀ li ∈ (lineItemsFor rates s samples).1,
      ∃ q : ℚ, li.quantity = pyRound q 4 ∧ li.amount = pyRound (q * li.rate) 4 := by
  intro li h
  simp only [lineItemsFor, List.mem_append] at h
  rcases h with (h | h) | h
  · by_cases hv : 0 < (accumHours s.cores s.disk_gib samples).1
    · rw [if_pos hv] at h
      rcases List.mem_cons.mp h with h | h
      · exact ⟨(accumHours s.cores s.disk_gib samples).1, by rw [h], by rw [h]⟩
      · simp at h
    · rw [if_neg hv] at h
      simp at h
  · by_cases hv : 0 < (accumHours s.cores s.disk_gib samples).2.1
    · rw [if_pos hv] at h
      rcases List.mem_cons.mp h with h | h
      · exact ⟨(accumHours s.cores s.disk_gib samples).2.1, by rw [h], by rw [h]⟩
      · simp at h
    · rw [if_neg hv] at h
      simp at h
  · by_cases hv : 0 < (accumHours s.cores s.disk_gib samples).2.2
    · rw [if_pos hv] at h
      rcases List.mem_cons.mp h with h | h
      · exact ⟨(accumHours s.cores s.disk_gib samples).2.2, by rw [h], by rw [h]⟩
      · simp at h
    · rw [if_neg hv] at h
      simp at h

/-- Every line item of a generated invoice has the shape of
`lineItemsFor_shape`. -/
theorem invoiceItems_shape (rates : Rates) (db : Store) (ps pe : ℤ) :
    ∀ (servers : List ServerDoc) (li : LineItem),
      li ∈ (invoiceItems rates db ps pe servers).1 →
      ∃ q : ℚ, li.quantity = pyRound q 4 ∧ li.amount = pyRound (q * li.rate) 4
  | [], li, h => by simp [invoiceItems] at h
  | s :: rest, li, h => by
    simp only [invoiceItems, List.mem_append] at h
    rcases h with h | h
    · exact lineItemsFor_shape rates s _ li h
    · exact invoiceItems_shape rates db ps pe rest li h

/-- Elements of an id-filtered `updateFirst` either predate the write or
carry the expected owner. -/
theorem ownership_of_updateFirst {α : Type} (usr : α → String) (uid : String)
    (l : List α) (p : α → Bool) (f : α → α)
    (hf : ∀ y ∈ l, p y = true → usr (f y) = uid) :
    ∀ x ∈ updateFirst p f l, x ∈ l ∨ usr x = uid := by
  intro x hx
  rcases mem_updateFirst p f l x hx with h | ⟨y, hy, hpy, rfl⟩
  · exact Or.inl h
  · exact Or.inr (hf y hy hpy)

/-!
## Claim theorems
-/

/-- C1: the replace-in-place update path does NOT persist the new
runtime handle. Starting from a Running server whose handle is `"c1"`
(the only container the daemon holds), a cores-change update recreates
the container — the daemon afterwards holds exactly the fresh container
`"ctr-0"` — yet the persisted server document still carries the old
handle `"c1"`, which now refers to no existing container. -/
theorem C1_replace_keeps_old_handle :
    (update_server true c1dock c1db "alice" "s1" c1upd 100).2.1.servers.map
        (fun s => s.container_id) = [some "c1"] ∧
    (update_server true c1dock c1db "alice" "s1" c1upd 100).2.2.containers.map
        (fun c => c.id) = ["ctr-0"] ∧
    ("c1" : String) ≠ "ctr-0" := by decide

/-- C2 (amended): the mock adapter's synthetic handle is
`"mock-container-" ++ serverId` (not `"mock-" ++ serverId`); mock start,
stop and delete return success and stats returns the fixed mock
dictionary, but `is_container_running` — which has no mock guard and
whose attribute access on the absent client raises into its `except` —
reports `false` for every handle. -/
theorem C2_mock_adapter_behavior :
    (∀ (st : DockerState) (server : ServerDoc),
      create_container false st server = ("mock-container-" ++ server.id, st)) ∧
    (∀ (st : DockerState) (cid : String),
      start_container false st cid = (true, st) ∧
      stop_container false st cid = (true, st) ∧
      delete_container false st cid = (true, st) ∧
      is_container_running false st cid = false) ∧
    (∀ (raw : Option RawStats) (cid : String),
      get_container_stats false raw cid = some mockStatsMap) :=
  ⟨fun _ _ => rfl, fun _ _ => ⟨rfl, rfl, rfl, rfl⟩, fun _ _ => rfl⟩

/-- C2 is false as stated: for server id `"s1"` the mock handle is
`"mock-container-s1"`, not `"mock-s1"`, and `is_container_running`
reports the freshly created mock handle as NOT running. -/
theorem C2_cex :
    (create_container false ⟨[], 0⟩ c2srv).1 = "mock-container-s1" ∧
    (create_container false ⟨[], 0⟩ c2srv).1 ≠ "mock-" ++ c2srv.id ∧
    is_container_running false ⟨[], 0⟩ ((create_container false ⟨[], 0⟩ c2srv).1) = false := by
  decide

/-- C3: the invoice integration is left-endpoint over adjacent sample
pairs — the loop's accumulators equal the spec's three pair sums for
every sample list — a single-sample list contributes zero hours, and on
the worked example (`cores = 2`, two samples 3600 s apart with
`cpu_pct = 50` at the earlier one) `vcpu_hours = 1` and the generated
vCPU line item at rate 0.01 has amount 0.01. -/
theorem C3_left_endpoint_integration :
    (∀ (cores : ℤ) (dg : ℚ) (l : List UsageSampleDoc),
      accumHours cores dg l = (specVcpuHours cores l, specRamHours l, specDiskHours dg l)) ∧
    (∀ (cores : ℤ) (dg : ℚ) (s : UsageSampleDoc), accumHours cores dg [s] = (0, 0, 0)) ∧
    accumHours c3srv.cores c3srv.disk_gib [c3a, c3b] = (1, 0, 1) ∧
    (generate_invoice defaultRates c3db "alice" 0 7200 "i1" 50).1 = .ok c3inv ∧
    c3inv.line_items.head? = some c3vItem ∧
    c3vItem.quantity = 1 ∧ c3vItem.rate = 1/100 ∧ c3vItem.amount = 1/100 := by
  refine ⟨accumHours_eq, fun cores dg s => by simp [accumHours],
    by norm_num [accumHours, c3srv, c3a, c3b], ?_,
    by norm_num [c3inv, c3vItem, c3dItem], by norm_num [c3vItem],
    by norm_num [c3vItem], by norm_num [c3vItem]⟩
  norm_num [generate_invoice, invoiceItems, lineItemsFor, accumHours, sortByTs, insertTs,
    findOne, defaultRates, c3db, c3srv, c3a, c3b, c3inv, c3vItem, c3dItem, pyRound]

/-- C4: paying a not-yet-Paid invoice succeeds, appends exactly one
Transaction whose amount is the invoice's current total, and flips the
(unique) invoice with that id to Paid; paying an already-Paid invoice is
rejected with the 400 conflict and changes nothing. -/
theorem C4_pay_once (db : Store) (uid iid : String) (m : TxMethod) (txid : String)
    (now : ℤ) (inv : InvoiceDoc)
    (hu : db.invoices.Pairwise (fun a b => a.id ≠ b.id))
    (hfind : findOne (fun i => i.id = iid ∧ i.user_id = uid) db.invoices = some inv) :
    (inv.status ≠ .paid →
      (pay_invoice db uid iid m txid now).1 =
        .ok { id := txid, invoice_id := iid, amount := inv.total, method := m, ts := now } ∧
      (pay_invoice db uid iid m txid now).2.transactions =
        db.transactions ++
          [{ id := txid, invoice_id := iid, amount := inv.total, method := m, ts := now }] ∧
      ({ inv with status := InvStatus.paid } ∈ (pay_invoice db uid iid m txid now).2.invoices) ∧
      (∀ i ∈ (pay_invoice db uid iid m txid now).2.invoices, i.id = iid →
        i = { inv with status := InvStatus.paid })) ∧
    (inv.status = .paid →
      pay_invoice db uid iid m txid now = (.err 400 "Invoice is already paid", db)) := by
  have hfind' : db.invoices.find? (fun i => i.id = iid ∧ i.user_id = uid) = some inv := hfind
  have hfind2 := hfind
  simp only [Bool.decide_and] at hfind2
  have hmem : inv ∈ db.invoices := List.mem_of_find?_eq_some hfind'
  have hprops := List.find?_some hfind'
  simp only [decide_eq_true_eq] at hprops
  constructor
  · intro hns
    have hsplit : pay_invoice db uid iid m txid now =
        (.ok { id := txid, invoice_id := iid, amount := inv.total, method := m, ts := now },
         { db with
            transactions := db.transactions ++
              [{ id := txid, invoice_id := iid, amount := inv.total, method := m, ts := now }]
            invoices := updateFirst (fun i => i.id = iid)
              (fun i => { i with status := InvStatus.paid }) db.invoices }) := by
      simp [pay_invoice, hfind2, hns]
    rw [hsplit]
    refine ⟨rfl, rfl, ?_, ?_⟩
    · exact updateFirst_mem_image _ _ db.invoices inv hmem (by simp [hprops.1])
        (fun x hx hpx => eq_of_mem_pairwise_key InvoiceDoc.id hu hx hmem
          (by simpa [hprops.1] using hpx))
    · exact updateFirst_paid_of_find iid uid inv db.invoices hu hfind'
  · intro hp
    simp [pay_invoice, hfind2, hp]

/-- Witness for C4 at a concrete store: `alice` pays her Draft invoice
`i1` of total 42. -/
theorem C4_pay_once_witness :
    (c4inv.status ≠ .paid →
      (pay_invoice c4db "alice" "i1" .credit_card "t1" 9).1 =
        .ok { id := "t1", invoice_id := "i1", amount := c4inv.total,
              method := .credit_card, ts := 9 } ∧
      (pay_invoice c4db "alice" "i1" .credit_card "t1" 9).2.transactions =
        c4db.transactions ++
          [{ id := "t1", invoice_id := "i1", amount := c4inv.total,
             method := .credit_card, ts := 9 }] ∧
      ({ c4inv with status := InvStatus.paid } ∈
        (pay_invoice c4db "alice" "i1" .credit_card "t1" 9).2.invoices) ∧
      (∀ i ∈ (pay_invoice c4db "alice" "i1" .credit_card "t1" 9).2.invoices, i.id = "i1" →
        i = { c4inv with status := InvStatus.paid })) ∧
    (c4inv.status = .paid →
      pay_invoice c4db "alice" "i1" .credit_card "t1" 9 =
        (.err 400 "Invoice is already paid", c4db)) :=
  C4_pay_once c4db "alice" "i1" .credit_card "t1" 9 c4inv
    (by simp [c4db]) (by simp [findOne, c4db, c4inv])

/-- C5 (amended): the usage query's time range is CLOSED at both ends —
the `$match` uses `$gte`/`$lte` — so at interval `1m` every sample of
the server with `from <= ts <= to`, including one exactly at the end
bound, appears in the returned rows. -/
theorem C5_closed_range (db : Store) (uid sid : String) (f t now : ℤ) (srv : ServerDoc)
    (hsrv : findOne (fun s => s.id = sid ∧ s.user_id = uid) db.servers = some srv)
    (s : UsageSampleDoc) (hmem : s ∈ db.usage_samples) (hsid : s.server_id = sid)
    (hf : f ≤ s.ts) (ht : s.ts ≤ t) :
    ∃ rows : List URow,
      get_server_usage db uid sid (some f) (some t) "1m" now = .ok rows ∧
      URow.raw s ∈ rows := by
  have hfind2 := hsrv
  simp only [Bool.decide_and] at hfind2
  refine ⟨(sortByTs (db.usage_samples.filter
    (fun x => x.server_id = sid ∧ f ≤ x.ts ∧ x.ts ≤ t))).map URow.raw, ?_, ?_⟩
  · simp [get_server_usage, hfind2]
  · exact List.mem_map_of_mem URow.raw
      (mem_sortByTs _ s (List.mem_filter.mpr ⟨hmem, by simp [hsid, hf, ht]⟩))

/-- Witness for C5 at a concrete store: the sample at `ts = 100` is
returned by the query over `[0, 100]`. -/
theorem C5_closed_range_witness :
    ∃ rows : List URow,
      get_server_usage c5db "alice" "s1" (some 0) (some 100) "1m" 0 = .ok rows ∧
      URow.raw c5samp ∈ rows :=
  C5_closed_range c5db "alice" "s1" 0 100 0 c5srv (by simp [findOne, c5db, c5srv])
    c5samp (by simp [c5db]) (by simp [c5samp]) (by simp [c5samp]) (by simp [c5samp])

/-- C5 is false as stated: querying `[0, 100]` with interval `1m` on a
store whose only sample has `ts = 100` — exactly the end bound — returns
that sample instead of excluding it. -/
theorem C5_cex :
    get_server_usage c5db "alice" "s1" (some 0) (some 100) "1m" 0 =
      .ok [URow.raw c5samp] ∧ c5samp.ts = 100 := by
  constructor
  · simp [get_server_usage, findOne, c5db, c5srv, c5samp, sortByTs, insertTs]
  · rfl

/-- C6 (amended): over samples spanning exactly two hour buckets, the
`1h` aggregation returns exactly two rows in bucket order; each row
carries the per-bucket sample count and the arithmetic means of
`cpu_pct`, `ram_mib`, `disk_gib` ROUNDED TO 2 DECIMALS (`$round`), not
the exact means. -/
theorem C6_two_hour_buckets (db : Store) (uid sid : String) (f t now h1 h2 : ℤ)
    (srv : ServerDoc) (A B : List UsageSampleDoc)
    (hsrv : findOne (fun s => s.id = sid ∧ s.user_id = uid) db.servers = some srv)
    (hsplit : sortByTs (db.usage_samples.filter
        (fun s => s.server_id = sid ∧ f ≤ s.ts ∧ s.ts ≤ t)) = A ++ B)
    (hAne : A ≠ []) (hBne : B ≠ [])
    (hA : ∀ s ∈ A, dateTrunc 3600 s.ts = h1) (hB : ∀ s ∈ B, dateTrunc 3600 s.ts = h2)
    (hne : h1 ≠ h2) :
    get_server_usage db uid sid (some f) (some t) "1h" now = .ok
      [URow.bucket h1 (pyRound (qMean (A.map (fun s => s.cpu_pct))) 2)
        (pyRound (qMean (A.map (fun s => s.ram_mib))) 2)
        (pyRound (qMean (A.map (fun s => s.disk_gib))) 2) A.length,
       URow.bucket h2 (pyRound (qMean (B.map (fun s => s.cpu_pct))) 2)
        (pyRound (qMean (B.map (fun s => s.ram_mib))) 2)
        (pyRound (qMean (B.map (fun s => s.disk_gib))) 2) B.length] := by
  have hfind2 := hsrv
  simp only [Bool.decide_and] at hfind2
  have hsplit2 := hsplit
  simp only [Bool.decide_and] at hsplit2
  have hkeys : bucketKeys 3600 (A ++ B) = [h1, h2] := by
    unfold bucketKeys
    rw [List.map_append]
    apply dedupFirst_two h1 h2 hne
    · simpa using hAne
    · simpa using hBne
    · intro x hx
      rcases List.mem_map.mp hx with ⟨s, hs, rfl⟩
      exact hA s hs
    · intro y hy
      rcases List.mem_map.mp hy with ⟨s, hs, rfl⟩
      exact hB s hs
  have hfA : (A ++ B).filter (fun s => decide (dateTrunc 3600 s.ts = h1)) = A := by
    rw [List.filter_append]
    have ha : A.filter (fun s => decide (dateTrunc 3600 s.ts = h1)) = A :=
      List.filter_eq_self.mpr (fun s hs => by simp [hA s hs])
    have hb : B.filter (fun s => decide (dateTrunc 3600 s.ts = h1)) = [] :=
      List.filter_eq_nil_iff.mpr (fun s hs => by simp [hB s hs, Ne.symm hne])
    rw [ha, hb, List.append_nil]
  have hfB : (A ++ B).filter (fun s => decide (dateTrunc 3600 s.ts = h2)) = B := by
    rw [List.filter_append]
    have ha : A.filter (fun s => decide (dateTrunc 3600 s.ts = h2)) = [] :=
      List.filter_eq_nil_iff.mpr (fun s hs => by simp [hA s hs, hne])
    have hb : B.filter (fun s => decide (dateTrunc 3600 s.ts = h2)) = B :=
      List.filter_eq_self.mpr (fun s hs => by simp [hB s hs])
    rw [ha, hb, List.nil_append]
  have hrows : groupRows 3600 (A ++ B) = 
      [URow.bucket h1 (pyRound (qMean (A.map (fun s => s.cpu_pct))) 2)
        (pyRound (qMean (A.map (fun s => s.ram_mib))) 2)
        (pyRound (qMean (A.map (fun s => s.disk_gib))) 2) A.length,
       URow.bucket h2 (pyRound (qMean (B.map (fun s => s.cpu_pct))) 2)
        (pyRound (qMean (B.map (fun s => s.ram_mib))) 2)
        (pyRound (qMean (B.map (fun s => s.disk_gib))) 2) B.length] := by
    simp only [groupRows, hkeys, List.map_cons, List.map_nil, bucketRow, hfA, hfB]
  simp [get_server_usage, hfind2, hsplit2, hrows]

/-- Witness for C6 at a concrete store: three samples in hour bucket 0
(cpu 0, 0, 1) and one in bucket 3600 (cpu 5) yield exactly the two
bucket rows. -/
theorem C6_two_hour_buckets_witness :
    get_server_usage c6db "alice" "s1" (some 0) (some 3600) "1h" 0 = .ok
      [URow.bucket 0 (pyRound (qMean ([c6s1, c6s2, c6s3].map (fun s => s.cpu_pct))) 2)
        (pyRound (qMean ([c6s1, c6s2, c6s3].map (fun s => s.ram_mib))) 2)
        (pyRound (qMean ([c6s1, c6s2, c6s3].map (fun s => s.disk_gib))) 2)
        ([c6s1, c6s2, c6s3] : List UsageSampleDoc).length,
       URow.bucket 3600 (pyRound (qMean ([c6s4].map (fun s => s.cpu_pct))) 2)
        (pyRound (qMean ([c6s4].map (fun s => s.ram_mib))) 2)
        (pyRound (qMean ([c6s4].map (fun s => s.disk_gib))) 2)
        ([c6s4] : List UsageSampleDoc).length] :=
  C6_two_hour_buckets c6db "alice" "s1" 0 3600 0 0 3600 c6srv [c6s1, c6s2, c6s3] [c6s4]
    (by simp [findOne, c6db, c6srv])
    (by simp [c6db, c6s1, c6s2, c6s3, c6s4, sortByTs, insertTs])
    (by simp) (by simp)
    (by
      intro s hs
      simp only [List.mem_cons, List.not_mem_nil, or_false] at hs
      rcases hs with rfl | rfl | rfl <;> rfl)
    (by
      intro s hs
      simp only [List.mem_cons, List.not_mem_nil, or_false] at hs
      rcases hs with rfl
      rfl)
    (by norm_num)

/-- C6 is false as stated: on `c6db` the first returned row reports
`cpu_pct = 0.33`, but the arithmetic mean of the three samples in that
hour bucket is `1/3 ≠ 0.33` — the code rounds the mean to 2 decimals. -/
theorem C6_cex :
    get_server_usage c6db "alice" "s1" (some 0) (some 3600) "1h" 0 =
      .ok [URow.bucket 0 (33/100) 0 0 3, URow.bucket 3600 5 0 0 1] ∧
    qMean ([c6s1, c6s2, c6s3].map (fun s => s.cpu_pct)) = 1/3 ∧
    (33/100 : ℚ) ≠ 1/3 := by
  refine ⟨?_, by norm_num [qMean, c6s1, c6s2, c6s3], by norm_num⟩
  norm_num [get_server_usage, findOne, c6db, c6srv, c6s1, c6s2, c6s3, c6s4, sortByTs,
    insertTs, groupRows, bucketKeys, dedupFirst, bucketRow, dateTrunc, qMean, pyRound]
  exact fun h => absurd h (by decide)

/-- C7: a valid-period invoice-generation request by a user owning no
servers is rejected with no side effect — the store is returned
unchanged, no invoice persisted — but the rejection reaches the caller
as a 500 internal error: the endpoint raises its no-servers
`HTTPException(400)` inside the `try` block, and the blanket
`except Exception` catches it and re-raises it wrapped as a 500. -/
theorem C7_no_servers_wrapped_to_500 (rates : Rates) (db : Store) (uid : String)
    (ps pe : ℤ) (nid : String) (now : ℤ) (hp : ps < pe)
    (hnoinv : findOne (fun i => i.user_id = uid ∧ i.period_start = ps ∧ i.period_end = pe)
      db.invoices = none)
    (hnosrv : db.servers.filter (fun s => s.user_id = uid) = []) :
    generate_invoice rates db uid ps pe nid now =
      (.err 500 "Failed to generate invoice: 400: No servers found for user", db) := by
  have hnoinv2 := hnoinv
  simp only [Bool.decide_and] at hnoinv2
  simp [generate_invoice, hnoinv2, hnosrv, not_le.mpr hp]

/-- Witness for C7: the empty store, period `[0, 3600)`. -/
theorem C7_no_servers_wrapped_to_500_witness :
    generate_invoice defaultRates c7db "alice" 0 3600 "i1" 50 =
      (.err 500 "Failed to generate invoice: 400: No servers found for user", c7db) :=
  C7_no_servers_wrapped_to_500 defaultRates c7db "alice" 0 3600 "i1" 50
    (by norm_num) rfl rfl

/-- C8 (amended): every line item of every generated invoice records
`quantity = round(q, 4)` for its raw resource-hour total `q`, and
`amount = round(q * rate, 4)` computed from the UNROUNDED `q` — not
from the rounded quantity. -/
theorem C8_amount_from_unrounded (rates : Rates) (db : Store) (uid : String)
    (ps pe : ℤ) (nid : String) (now : ℤ) (inv : InvoiceDoc) (db2 : Store)
    (h : generate_invoice rates db uid ps pe nid now = (.ok inv, db2))
    (li : LineItem) (hmem : li ∈ inv.line_items) :
    ∃ q : ℚ, li.quantity = pyRound q 4 ∧ li.amount = pyRound (q * li.rate) 4 := by
  simp only [generate_invoice] at h
  split_ifs at h with hc1 hc2 hc3
  · exact absurd h (by simp)
  · exact absurd h (by simp)
  · exact absurd h (by simp)
  · rw [Prod.mk.injEq] at h
    have hinv := ApiResult.ok.inj h.1
    subst hinv
    exact invoiceItems_shape rates db ps pe _ li hmem

/-- Witness for C8: the vCPU item of the invoice generated from `c8db`. -/
theorem C8_amount_from_unrounded_witness :
    ∃ q : ℚ, c8vItem.quantity = pyRound q 4 ∧ c8vItem.amount = pyRound (q * c8vItem.rate) 4 :=
  C8_amount_from_unrounded defaultRates c8db "alice" 0 7200 "i1" 50 c8inv c8db2
    (by
      norm_num [generate_invoice, invoiceItems, lineItemsFor, accumHours, sortByTs, insertTs,
        findOne, defaultRates, c8db, c8db2, c8srv, c8a, c8b, c8inv, c8vItem, c8dItem, pyRound])
    c8vItem (by simp [c8inv])

/-- C8 is false as stated: the vCPU item generated from `c8db` has
`amount = 0.0001 = round(0.014996 * 0.01, 4)`, whereas multiplying the
recorded (4-decimal-rounded) quantity `0.015` by the rate and rounding
gives `round(0.00015, 4) = 0.0002`. -/
theorem C8_cex :
    (generate_invoice defaultRates c8db "alice" 0 7200 "i1" 50).1 = .ok c8inv ∧
    c8vItem ∈ c8inv.line_items ∧
    c8vItem.amount ≠ pyRound (c8vItem.quantity * c8vItem.rate) 4 := by
  refine ⟨?_, by simp [c8inv], by norm_num [c8vItem, pyRound]⟩
  norm_num [generate_invoice, invoiceItems, lineItemsFor, accumHours, sortByTs, insertTs,
    findOne, defaultRates, c8db, c8srv, c8a, c8b, c8inv, c8vItem, c8dItem, pyRound]

/-- C9 (amended): every read is scoped by `user_id` equality, but the
status-persisting writes of start/stop/update and pay filter on the
record id alone; they still cannot touch another user's Server or
Invoice PROVIDED ids are pairwise distinct, because the id-only write
can then only hit the document the ownership-checked read returned. -/
theorem C9_ownership_scoping (available : Bool) (dst : DockerState) (db : Store)
    (uid sid iid : String) (u : ServerUpdateReq) (m : TxMethod) (txid : String) (now : ℤ)
    (hpws : db.servers.Pairwise (fun a b => a.id ≠ b.id))
    (hpwi : db.invoices.Pairwise (fun a b => a.id ≠ b.id)) :
    (∀ s ∈ (start_server available dst db uid sid now).2.1.servers,
      s ∈ db.servers ∨ s.user_id = uid) ∧
    (∀ s ∈ (stop_server available dst db uid sid now).2.1.servers,
      s ∈ db.servers ∨ s.user_id = uid) ∧
    (∀ s ∈ (update_server available dst db uid sid u now).2.1.servers,
      s ∈ db.servers ∨ s.user_id = uid) ∧
    (∀ s ∈ (delete_server available dst db uid sid).2.1.servers,
      s ∈ db.servers ∨ s.user_id = uid) ∧
    (∀ i ∈ (pay_invoice db uid iid m txid now).2.invoices,
      i ∈ db.invoices ∨ i.user_id = uid) := by
  refine ⟨?_, ?_, ?_, ?_, ?_⟩
  · intro s hs'
    cases hfind : findOne (fun x => x.id = sid ∧ x.user_id = uid) db.servers with
    | none =>
      simp only [start_server, hfind] at hs'
      exact Or.inl hs'
    | some server =>
      have hfind' : db.servers.find? (fun x => x.id = sid ∧ x.user_id = uid) = some server :=
        hfind
      have hmemS : server ∈ db.servers := List.mem_of_find?_eq_some hfind'
      have hprops := List.find?_some hfind'
      simp only [decide_eq_true_eq] at hprops
      simp only [start_server, hfind] at hs'
      by_cases hrun : server.status = .running
      · rw [if_pos hrun] at hs'
        exact Or.inl hs'
      · rw [if_neg hrun] at hs'
        cases hcid : server.container_id with
        | none =>
          simp only [hcid] at hs'
          exact Or.inl hs'
        | some cid =>
          simp only [hcid] at hs'
          by_cases hb : (start_container available dst cid).1 = true
          · rw [if_pos hb] at hs'
            refine ownership_of_updateFirst ServerDoc.user_id uid db.servers _ _ ?_ s hs'
            intro y hy hpy
            have hyid : y.id = sid := of_decide_eq_true hpy
            have hys : y = server :=
              eq_of_mem_pairwise_key ServerDoc.id hpws hy hmemS (hyid.trans hprops.1.symm)
            simpa [hys] using hprops.2
          · rw [if_neg hb] at hs'
            exact Or.inl hs'
  · intro s hs'
    cases hfind : findOne (fun x => x.id = sid ∧ x.user_id = uid) db.servers with
    | none =>
      simp only [stop_server, hfind] at hs'
      exact Or.inl hs'
    | some server =>
      have hfind' : db.servers.find? (fun x => x.id = sid ∧ x.user_id = uid) = some server :=
        hfind
      have hmemS : server ∈ db.servers := List.mem_of_find?_eq_some hfind'
      have hprops := List.find?_some hfind'
      simp only [decide_eq_true_eq] at hprops
      simp only [stop_server, hfind] at hs'
      by_cases hstp : server.status = .stopped
      · rw [if_pos hstp] at hs'
        exact Or.inl hs'
      · rw [if_neg hstp] at hs'
        cases hcid : server.container_id with
        | none =>
          simp only [hcid] at hs'
          exact Or.inl hs'
        | some cid =>
          simp only [hcid] at hs'
          by_cases hb : (stop_container available dst cid).1 = true
          · rw [if_pos hb] at hs'
            refine ownership_of_updateFirst ServerDoc.user_id uid db.servers _ _ ?_ s hs'
            intro y hy hpy
            have hyid : y.id = sid := of_decide_eq_true hpy
            have hys : y = server :=
              eq_of_mem_pairwise_key ServerDoc.id hpws hy hmemS (hyid.trans hprops.1.symm)
            simpa [hys] using hprops.2
          · rw [if_neg hb] at hs'
            exact Or.inl hs'
  · intro s hs'
    cases hfind : findOne (fun x => x.id = sid ∧ x.user_id = uid) db.servers with
    | none =>
      simp only [update_server, hfind] at hs'
      exact Or.inl hs'
    | some server =>
      have hfind' : db.servers.find? (fun x => x.id = sid ∧ x.user_id = uid) = some server :=
        hfind
      have hmemS : server ∈ db.servers := List.mem_of_find?_eq_some hfind'
      have hprops := List.find?_some hfind'
      simp only [decide_eq_true_eq] at hprops
      simp only [update_server, hfind] at hs'
      by_cases hemp : emptyUpdate u = true
      · rw [if_pos hemp] at hs'
        exact Or.inl hs'
      · rw [if_neg hemp] at hs'
        by_cases hbad : badResource u = true
        · rw [if_pos hbad] at hs'
          exact Or.inl hs'
        · rw [if_neg hbad] at hs'
          refine ownership_of_updateFirst ServerDoc.user_id uid db.servers _ _ ?_ s hs'
          intro y hy hpy
          simpa using hprops.2
  · intro s hs'
    cases hfind : findOne (fun x => x.id = sid ∧ x.user_id = uid) db.servers with
    | none =>
      simp only [delete_server, hfind] at hs'
      exact Or.inl hs'
    | some server =>
      simp only [delete_server, hfind] at hs'
      exact Or.inl (mem_eraseFirst _ db.servers s hs')
  · intro i hi'
    cases hfind : findOne (fun x => x.id = iid ∧ x.user_id = uid) db.invoices with
    | none =>
      simp only [pay_invoice, hfind] at hi'
      exact Or.inl hi'
    | some inv =>
      have hfind' : db.invoices.find? (fun x => x.id = iid ∧ x.user_id = uid) = some inv :=
        hfind
      have hmemI : inv ∈ db.invoices := List.mem_of_find?_eq_some hfind'
      have hprops := List.find?_some hfind'
      simp only [decide_eq_true_eq] at hprops
      simp only [pay_invoice, hfind] at hi'
      by_cases hpd : inv.status = .paid
      · rw [if_pos hpd] at hi'
        exact Or.inl hi'
      · rw [if_neg hpd] at hi'
        refine ownership_of_updateFirst InvoiceDoc.user_id uid db.invoices _ _ ?_ i hi'
        intro y hy hpy
        have hyid : y.id = iid := of_decide_eq_true hpy
        have hyi : y = inv :=
          eq_of_mem_pairwise_key InvoiceDoc.id hpwi hy hmemI (hyid.trans hprops.1.symm)
        simpa [hyi] using hprops.2

/-- Witness for C9 on a store with distinct ids (one server of `alice`,
no invoices). -/
theorem C9_ownership_scoping_witness :
    (∀ s ∈ (start_server false ⟨[], 0⟩ c1db "alice" "s1" 7).2.1.servers,
      s ∈ c1db.servers ∨ s.user_id = "alice") ∧
    (∀ s ∈ (stop_server false ⟨[], 0⟩ c1db "alice" "s1" 7).2.1.servers,
      s ∈ c1db.servers ∨ s.user_id = "alice") ∧
    (∀ s ∈ (update_server false ⟨[], 0⟩ c1db "alice" "s1" c1upd 7).2.1.servers,
      s ∈ c1db.servers ∨ s.user_id = "alice") ∧
    (∀ s ∈ (delete_server false ⟨[], 0⟩ c1db "alice" "s1").2.1.servers,
      s ∈ c1db.servers ∨ s.user_id = "alice") ∧
    (∀ i ∈ (pay_invoice c1db "alice" "i1" .credit_card "t1" 7).2.invoices,
      i ∈ c1db.invoices ∨ i.user_id = "alice") :=
  C9_ownership_scoping false ⟨[], 0⟩ c1db "alice" "s1" "i1" c1upd .credit_card "t1" 7
    (by simp [c1db]) (by simp [c1db])

/-- C9 is false as stated: `app/database.py` builds no unique index on
`servers.id`, and on a store where Eve's and Alice's server documents
share the id `"s"` (Eve's first in natural order), Alice's start request
passes the ownership-checked read on her own document but the id-only
`update_one` flips EVE's record to Running. -/
theorem C9_cex :
    (start_server false ⟨[], 0⟩ c9db "alice" "s" 99).2.1.servers.map
        (fun s => (s.user_id, s.status)) =
      [("eve", SrvStatus.running), ("alice", SrvStatus.stopped)] ∧
    c9eve.status = SrvStatus.stopped ∧ c9eve.user_id ≠ "alice" := by decide

/-- C10: the adapter's mock stats dictionary carries the keys
`memory_usage_mb` / `disk_usage_gb`, while the sampler task reads
`memory_mb` / `disk_gb`; the lookup fails (a `KeyError`, caught by the
task's blanket handler), so whenever the task receives the mock stats
value no UsageSample is persisted, whatever the liveness probe said. -/
theorem C10_mock_stats_keys_mismatch :
    (∀ (raw : Option RawStats) (cid : String),
      get_container_stats false raw cid = some mockStatsMap) ∧
    dictGet mockStatsMap "cpu_percent" = some 25 ∧
    dictGet mockStatsMap "memory_usage_mb" = some 512 ∧
    dictGet mockStatsMap "disk_usage_gb" = some 1 ∧
    dictGet mockStatsMap "memory_mb" = none ∧
    dictGet mockStatsMap "disk_gb" = none ∧
    (∀ (isRun : Bool) (db : Store) (sid nid : String) (now : ℤ),
      (sample_server_usage isRun (some mockStatsMap) db sid nid now).usage_samples =
        db.usage_samples) := by
  refine ⟨fun _ _ => rfl, rfl, rfl, rfl, rfl, rfl, ?_⟩
  intro isRun db sid nid now
  cases isRun
  · rfl
  · rfl
